import Mathlib

/-!
Verification of the Avocado Sales API service (`src/server.js`), a small
Express + Mongoose HTTP service over one MongoDB collection of sales records.

The embedding below translates the request handlers into pure Lean functions:
* the MongoDB collection is a `List SalesRecord` whose `insert` enforces the
  unique index on the logical `id` field (mongoose error code 11000);
* JavaScript request-body values are a `JsValue` (number, string, boolean or
  null), with `Option JsValue` distinguishing an omitted field (`undefined`);
* JavaScript numbers are modelled as `Rat`; `Option Rat` models `Number(s)`
  conversion, `none` standing for `NaN`;
* each handler is a function from the request data (and, where the claims
  concern store failures, from the outcome of the awaited store call) to a
  `Response` of HTTP status and JSON body.
-/

/-- A sales record as described by `AvocadoSchema` (server.js lines 21-30):
a numeric `id` (unique), string `date` and `region`, and five numeric fields.
JavaScript numbers are modelled as `Rat`. -/
structure SalesRecord where
  id : Rat
  date : String
  region : String
  averagePrice : Rat
  totalVolume : Rat
  smallBags : Rat
  largeBags : Rat
  xLargeBags : Rat
deriving DecidableEq, Repr

/-- A JavaScript JSON value as it can appear in a request-body field. -/
inductive JsValue where
  | num (n : Rat)
  | str (s : String)
  | bool (b : Bool)
  | null
deriving DecidableEq, Repr

/-- JavaScript truthiness of a destructured body field: `undefined` (omitted,
`none` here), `null`, `0` and `""` are falsy; any other number or string is
truthy; booleans are their own truth value. This is the `!field` test of
server.js line 108. -/
def truthy : Option JsValue → Bool
  | none => false
  | some JsValue.null => false
  | some (JsValue.bool b) => b
  | some (JsValue.num n) => decide (n ≠ 0)
  | some (JsValue.str s) => decide (s ≠ "")

/-- A mongoose/MongoDB error as observed by the `catch` blocks: an optional
numeric `code` (11000 for a duplicate-key violation) and a `message`. -/
structure MongoErr where
  code : Option Nat
  message : String
deriving DecidableEq, Repr

/-- The duplicate-key error raised by the unique index on `id`. -/
def dupKeyErr : MongoErr :=
  { code := some 11000, message := "E11000 duplicate key error" }

/-- The JSON body of a response: an array of records (list success), a single
record (get-by-id / create success), or an error object with an `error`
message and an optional `details` field. -/
inductive ResBody where
  | records (rs : List SalesRecord)
  | record (r : SalesRecord)
  | errorMsg (error : String) (details : Option String)
deriving DecidableEq, Repr

/-- An HTTP response: status code plus JSON body. -/
structure Response where
  status : Nat
  body : ResBody
deriving DecidableEq, Repr

/-- The mongo filter built by the list handler: optional equality constraints
on `date` and `region`. -/
structure Query where
  date : Option String
  region : Option String
deriving DecidableEq, Repr

/-- Whether a character is JavaScript whitespace (for `Number()` trimming). -/
def isWsChar (c : Char) : Bool :=
  decide (c = ' ') || decide (c = '\t') || decide (c = '\n') || decide (c = '\r')

/-- The numeric value of a list of decimal digits, most significant first. -/
def digitsToNat (cs : List Char) : Nat :=
  cs.foldl (fun acc c => acc * 10 + (c.toNat - 48)) 0

/-- Parse an unsigned decimal literal (digits, optionally with one dot and a
fractional part; at least one digit overall), as accepted by JavaScript
`Number()`. `none` means the text is not such a literal (NaN). -/
def parseUnsigned (cs : List Char) : Option Rat :=
  match cs.span (fun c => decide (c ≠ '.')) with
  | (intPart, []) =>
    if intPart ≠ [] ∧ intPart.all Char.isDigit then
      some (digitsToNat intPart : Rat)
    else
      none
  | (intPart, _ :: fracPart) =>
    if (intPart ≠ [] ∨ fracPart ≠ []) ∧ intPart.all Char.isDigit ∧ fracPart.all Char.isDigit then
      some ((digitsToNat intPart : Rat) + (digitsToNat fracPart : Rat) / ((10 : Rat) ^ fracPart.length))
    else
      none

/-- JavaScript `Number(s)` conversion of a string, restricted to the decimal
forms relevant here: whitespace is trimmed, the empty string converts to `0`,
an optionally signed decimal literal converts to its value, and anything else
is `NaN`, modelled as `none`. (Hexadecimal, exponent and `Infinity` forms are
not modelled; no claim depends on them.) -/
def jsNumber (s : String) : Option Rat :=
  let t := ((s.toList.dropWhile isWsChar).reverse.dropWhile isWsChar).reverse
  match t with
  | [] => some 0
  | '+' :: rest => parseUnsigned rest
  | '-' :: rest => (parseUnsigned rest).map (fun q => -q)
  | _ => parseUnsigned t

/-- Build the list-handler filter (server.js lines 71-73): start from the
empty filter and add each of `date` and `region` only when it is supplied and
truthy — an empty-string parameter, being falsy, is dropped like an absent
one. -/
def buildQuery (date region : Option String) : Query :=
  { date := date.filter (fun s => decide (s ≠ ""))
    region := region.filter (fun s => decide (s ≠ "")) }

/-- Whether a record matches a filter: each constraint present in the filter
must hold, absent constraints hold vacuously (MongoDB equality-filter `find`
semantics, AND-combined). -/
def matchesQuery (q : Query) (r : SalesRecord) : Bool :=
  (match q.date with
   | none => true
   | some d => decide (r.date = d)) &&
  (match q.region with
   | none => true
   | some rg => decide (r.region = rg))

/-- `Avocado.find(query)`: all records of the collection matching the filter,
in the store's natural order. -/
def findMatching (store : List SalesRecord) (q : Query) : List SalesRecord :=
  store.filter (fun r => matchesQuery q r)

/-- `Avocado.findOne(\x7b id: Number(id) \x7d)`: the first record whose `id`
field equals the parsed value; `none` for the parsed value is `NaN`, which is
equal to nothing, so it never matches. -/
def findOne (store : List SalesRecord) (idVal : Option Rat) : Option SalesRecord :=
  match idVal with
  | some v => store.find? (fun r => decide (r.id = v))
  | none => none

/-- The response of GET `/avocadoSalesData` (server.js lines 75-84) as a
function of the outcome of the awaited `Avocado.find` call: a non-empty
result list gives 200 with the array, an empty one gives 404 with an error
message, and a store failure is caught and gives 500 with `error` and
`details` fields. -/
def getAllResponse (findRes : Except MongoErr (List SalesRecord)) : Response :=
  match findRes with
  | Except.ok avocados =>
    if avocados.length > 0 then
      { status := 200, body := ResBody.records avocados }
    else
      { status := 404, body := ResBody.errorMsg "No avocado sales data found for the given filters" none }
  | Except.error e =>
    { status := 500, body := ResBody.errorMsg "Failed to retrieve data" (some e.message) }

/-- GET `/avocadoSalesData` (server.js lines 68-85) when the store call
succeeds: build the filter from the query parameters, find the matching
records, and map the result to a response. -/
def getAllHandler (store : List SalesRecord) (date region : Option String) : Response :=
  getAllResponse (Except.ok (findMatching store (buildQuery date region)))

/-- The response of GET `/avocadoSalesData/:id` (server.js lines 91-100) as a
function of the raw `:id` path segment and of the outcome of the awaited
`Avocado.findOne` call: a found record gives 200, no match gives 404 with an
id-specific message, and a store failure is caught and gives 500 with `error`
and `details` fields. -/
def getOneResponse (idStr : String) (findRes : Except MongoErr (Option SalesRecord)) : Response :=
  match findRes with
  | Except.ok (some avocado) => { status := 200, body := ResBody.record avocado }
  | Except.ok none =>
    { status := 404, body := ResBody.errorMsg ("No avocado sales data found for ID: " ++ idStr) none }
  | Except.error e =>
    { status := 500, body := ResBody.errorMsg "Failed to retrieve data" (some e.message) }

/-- GET `/avocadoSalesData/:id` (server.js lines 88-101) when the store call
succeeds: parse the path segment with `Number`, look up the first record with
that `id`, and map the result to a response. -/
def getByIdHandler (store : List SalesRecord) (idStr : String) : Response :=
  getOneResponse idStr (Except.ok (findOne store (jsNumber idStr)))

/-- The destructured POST body (server.js line 105): each of the eight fields
is either present with a JSON value or absent (`undefined`). -/
structure PostBody where
  id : Option JsValue
  date : Option JsValue
  region : Option JsValue
  averagePrice : Option JsValue
  totalVolume : Option JsValue
  smallBags : Option JsValue
  largeBags : Option JsValue
  xLargeBags : Option JsValue
deriving DecidableEq, Repr

/-- The validation test of server.js line 108: every one of the eight
destructured fields must be truthy. -/
def validBody (b : PostBody) : Bool :=
  truthy b.id && truthy b.date && truthy b.region && truthy b.averagePrice &&
  truthy b.totalVolume && truthy b.smallBags && truthy b.largeBags && truthy b.xLargeBags

/-- Mongoose casting of a body field to a `Number` schema path at save time:
numbers pass through, strings are converted as by `Number()` (a non-numeric
string is a cast failure), booleans become 0 or 1, and `null` or an absent
value fails the `required` validator. A `Except.error` here surfaces as a
`save()` rejection without a duplicate-key code. -/
def castToNumber : Option JsValue → Except String Rat
  | some (JsValue.num n) => Except.ok n
  | some (JsValue.str s) =>
    match jsNumber s with
    | some n => Except.ok n
    | none => Except.error "Cast to Number failed"
  | some (JsValue.bool b) => Except.ok (if b then 1 else 0)
  | some JsValue.null => Except.error "Path is required."
  | none => Except.error "Path is required."

/-- Mongoose casting of a body field to a `String` schema path at save time:
strings pass through, numbers and booleans are stringified, and `null` or an
absent value fails the `required` validator. -/
def castToString : Option JsValue → Except String String
  | some (JsValue.str s) => Except.ok s
  | some (JsValue.num n) => Except.ok (toString n)
  | some (JsValue.bool b) => Except.ok (toString b)
  | some JsValue.null => Except.error "Path is required."
  | none => Except.error "Path is required."

/-- Build the document `new Avocado(\x7b...\x7d)` from the body (server.js
lines 113-122), applying the schema casts; a cast or required-validator
failure is reported as an error message. -/
def buildRecord (b : PostBody) : Except String SalesRecord := do
  let i ← castToNumber b.id
  let d ← castToString b.date
  let rg ← castToString b.region
  let ap ← castToNumber b.averagePrice
  let tv ← castToNumber b.totalVolume
  let sb ← castToNumber b.smallBags
  let lb ← castToNumber b.largeBags
  let xb ← castToNumber b.xLargeBags
  return { id := i, date := d, region := rg, averagePrice := ap, totalVolume := tv,
           smallBags := sb, largeBags := lb, xLargeBags := xb }

/-- Insertion into the collection under the unique index on `id`: if some
stored record already has the new record's `id`, the insert is rejected with
the duplicate-key error (code 11000); otherwise the record is appended. -/
def insertRecord (store : List SalesRecord) (r : SalesRecord) : Except MongoErr (List SalesRecord) :=
  if store.any (fun x => decide (x.id = r.id)) then
    Except.error dupKeyErr
  else
    Except.ok (store ++ [r])

/-- The outcome of `newAvocado.save()` on the list-modelled store: a document
build failure (cast / required validation) rejects without a duplicate-key
code; otherwise the insert is attempted under the unique index. On success
the new store contents and the saved record are returned. -/
def saveNew (store : List SalesRecord) (b : PostBody) : Except MongoErr (List SalesRecord × SalesRecord) :=
  match buildRecord b with
  | Except.error msg => Except.error { code := none, message := msg }
  | Except.ok r =>
    match insertRecord store r with
    | Except.error e => Except.error e
    | Except.ok store2 => Except.ok (store2, r)

/-- The `catch` block of the POST handler (server.js lines 125-132): error
code 11000 gives 409 with the duplicate-id message, any other error gives 400
with the generic creation-failure message and the error detail. -/
def catchResponse (e : MongoErr) : Response :=
  if e.code = some 11000 then
    { status := 409, body := ResBody.errorMsg "Duplicate ID: An entry with this ID already exists" none }
  else
    { status := 400, body := ResBody.errorMsg "Failed to create avocado sale entry" (some e.message) }

/-- The response of POST `/avocadoSalesData` (server.js lines 104-133) as a
function of the body and of the outcome of the awaited `save()` call: a body
with any falsy field is rejected with 400 before the store is touched; then a
successful save gives 201 with the stored record, and a save failure goes
through the `catch` mapping. -/
def postResponse (b : PostBody) (saveRes : Except MongoErr (List SalesRecord × SalesRecord)) : Response :=
  if validBody b then
    match saveRes with
    | Except.ok (_, r) => { status := 201, body := ResBody.record r }
    | Except.error e => catchResponse e
  else
    { status := 400, body := ResBody.errorMsg "All fields are required" none }

/-- The store contents after the POST handler ran: unchanged unless
validation passed and the save succeeded. -/
def newStoreAfterPost (store : List SalesRecord) (b : PostBody) : List SalesRecord :=
  if validBody b then
    match saveNew store b with
    | Except.ok (store2, _) => store2
    | Except.error _ => store
  else
    store

/-- POST `/avocadoSalesData` (server.js lines 104-133) on the list-modelled
store: the response together with the store contents it leaves behind. -/
def postHandler (store : List SalesRecord) (b : PostBody) : Response × List SalesRecord :=
  (postResponse b (saveNew store b), newStoreAfterPost store b)

/-- The outcome of the seed attempt, as observed by the `try`/`catch` of
`seedDatabase` (server.js lines 45-53). -/
inductive SeedOutcome where
  | ok
  | failed (e : MongoErr)
deriving DecidableEq, Repr

/-- An observable effect of process startup: a console log line, a console
error line, or the `app.listen` call that starts the HTTP server. -/
inductive StartupEffect where
  | log (msg : String)
  | logError (msg : String)
  | listen
deriving DecidableEq, Repr

/-- `seedDatabase` on the store contents (server.js lines 45-53), successful
case: `Avocado.deleteMany()` clears the collection, then
`Avocado.insertMany(avocadoSalesData)` inserts the fixed seed dataset. -/
def seedDatabase (store : List SalesRecord) (seedData : List SalesRecord) : List SalesRecord :=
  let cleared : List SalesRecord := []
  let _ := store
  cleared ++ seedData

/-- The effects of process startup (server.js lines 43-55 and 136-138): when
the reset flag is set, the seed runs fire-and-forget and its outcome is only
logged (success log or caught-failure error log); `app.listen` is reached in
every case. -/
def startupEffects (resetDb : Bool) (outcome : SeedOutcome) : List StartupEffect :=
  (if resetDb then
    [match outcome with
     | SeedOutcome.ok => StartupEffect.log "Database seeded successfully!"
     | SeedOutcome.failed _ => StartupEffect.logError "Failed to seed database:"]
  else []) ++ [StartupEffect.listen]

/-- A body field counts as missing for the validation of server.js line 108
when it is omitted, `null`, the empty string, or numeric zero — exactly the
falsy JSON values a client can send. -/
def fieldMissing (v : Option JsValue) : Prop :=
  v = none ∨ v = some JsValue.null ∨ v = some (JsValue.str "") ∨ v = some (JsValue.num 0)

instance (v : Option JsValue) : Decidable (fieldMissing v) := by
  unfold fieldMissing
  infer_instance

/-- A sample valid POST body (all eight fields truthy). -/
def sampleBody : PostBody :=
  { id := some (JsValue.num 1)
    date := some (JsValue.str "2020-01-01")
    region := some (JsValue.str "USA")
    averagePrice := some (JsValue.num 1)
    totalVolume := some (JsValue.num 100)
    smallBags := some (JsValue.num 50)
    largeBags := some (JsValue.num 30)
    xLargeBags := some (JsValue.num 20) }

/-- The record that `sampleBody` builds. -/
def sampleRecord : SalesRecord :=
  { id := 1, date := "2020-01-01", region := "USA", averagePrice := 1,
    totalVolume := 100, smallBags := 50, largeBags := 30, xLargeBags := 20 }

/-- `sampleBody` with `totalVolume` set to the falsy value `0`. -/
def zeroVolumeBody : PostBody :=
  { sampleBody with totalVolume := some (JsValue.num 0) }

/-- `sampleBody` with `id` set to the falsy value `0`. -/
def zeroIdBody : PostBody :=
  { sampleBody with id := some (JsValue.num 0) }

/-- Each of the falsy value shapes makes the destructured field falsy. -/
theorem truthy_eq_false_of_missing (v : Option JsValue) (h : fieldMissing v) :
    truthy v = false := by
  rcases h with h | h | h | h <;> subst h <;> simp [truthy]

/-- C2: a POST body with at least one of the required fields 0, empty string,
null, or omitted is answered with 400 "All fields are required" and leaves
the store unchanged — no record is persisted. -/
theorem post_missing_field_rejected (store : List SalesRecord) (b : PostBody)
    (h : fieldMissing b.id ∨ fieldMissing b.date ∨ fieldMissing b.region ∨
         fieldMissing b.averagePrice ∨ fieldMissing b.totalVolume ∨
         fieldMissing b.smallBags ∨ fieldMissing b.largeBags ∨ fieldMissing b.xLargeBags) :
    postHandler store b =
      ({ status := 400, body := ResBody.errorMsg "All fields are required" none }, store) := by
  have hv : validBody b = false := by
    rcases h with h | h | h | h | h | h | h | h <;>
      simp [validBody, truthy_eq_false_of_missing _ h]
  simp [postHandler, postResponse, newStoreAfterPost, hv]

theorem post_missing_field_rejected_witness :
    fieldMissing zeroVolumeBody.totalVolume ∧
    postHandler [] zeroVolumeBody =
      ({ status := 400, body := ResBody.errorMsg "All fields are required" none }, []) :=
  ⟨by decide, post_missing_field_rejected [] zeroVolumeBody (by decide)⟩

/-- C9: the `id` field goes through the same truthiness validation as the
other fields — a body whose `id` is 0, null, or omitted is rejected with 400
and the store is not touched. -/
theorem id_zero_null_omitted_rejected (store : List SalesRecord) (b : PostBody)
    (h : b.id = some (JsValue.num 0) ∨ b.id = some JsValue.null ∨ b.id = none) :
    postHandler store b =
      ({ status := 400, body := ResBody.errorMsg "All fields are required" none }, store) := by
  have hm : fieldMissing b.id := by
    rcases h with h | h | h
    · exact Or.inr (Or.inr (Or.inr h))
    · exact Or.inr (Or.inl h)
    · exact Or.inl h
  have hv : validBody b = false := by
    simp [validBody, truthy_eq_false_of_missing _ hm]
  simp [postHandler, postResponse, newStoreAfterPost, hv]

theorem id_zero_null_omitted_rejected_witness :
    zeroIdBody.id = some (JsValue.num 0) ∧
    postHandler [] zeroIdBody =
      ({ status := 400, body := ResBody.errorMsg "All fields are required" none }, []) :=
  ⟨by decide, id_zero_null_omitted_rejected [] zeroIdBody (Or.inl (by decide))⟩

/-- C4: the list endpoint returns 200 with the (non-empty) array of records
matching the constructed filter, and 404 with an error message whenever the
matching set is empty — an empty match, including an empty collection with no
filters, is never a 200 with an empty array. -/
theorem list_nonempty_200_empty_404 (store : List SalesRecord) (date region : Option String) :
    getAllHandler store date region =
      if findMatching store (buildQuery date region) = [] then
        { status := 404, body := ResBody.errorMsg "No avocado sales data found for the given filters" none }
      else
        { status := 200, body := ResBody.records (findMatching store (buildQuery date region)) } := by
  unfold getAllHandler getAllResponse
  rcases h : findMatching store (buildQuery date region) with _ | ⟨a, as⟩ <;> simp [h]

/-- C5: the filter holds exactly the parameters supplied — with neither
parameter every record matches; an absent `date` (resp. `region`) leaves only
the other equality constraint; and with both supplied the matching records
are exactly those whose `date` and `region` both equal the given values. -/
theorem filter_built_from_supplied_params (store : List SalesRecord) (d rg : String)
    (rec : SalesRecord) (hd : d ≠ "") (hr : rg ≠ "") :
    matchesQuery (buildQuery none none) rec = true
  ∧ matchesQuery (buildQuery none (some rg)) rec = decide (rec.region = rg)
  ∧ matchesQuery (buildQuery (some d) none) rec = decide (rec.date = d)
  ∧ findMatching store (buildQuery (some d) (some rg)) =
      store.filter (fun x => decide (x.date = d) && decide (x.region = rg)) := by
  have hq : buildQuery (some d) (some rg) = { date := some d, region := some rg } := by
    simp [buildQuery, Option.filter, hd, hr]
  refine ⟨rfl, ?_, ?_, ?_⟩
  · simp [buildQuery, Option.filter, hr, matchesQuery]
  · simp [buildQuery, Option.filter, hd, matchesQuery]
  · rw [hq]
    rfl

theorem filter_built_from_supplied_params_witness :
    ("2020-01-01" : String) ≠ "" ∧ ("USA" : String) ≠ "" ∧
    findMatching [sampleRecord] (buildQuery (some "2020-01-01") (some "USA")) =
      [sampleRecord].filter (fun x => decide (x.date = "2020-01-01") && decide (x.region = "USA")) :=
  ⟨by decide, by decide,
    (filter_built_from_supplied_params [sampleRecord] "2020-01-01" "USA" sampleRecord
      (by decide) (by decide)).2.2.2⟩

/-- C6: a `:id` path segment that does not parse as a number yields `NaN`,
which matches no record's `id`, so the response is the 404 id-specific
not-found message (and in particular never a 400). -/
theorem nonnumeric_id_not_found (store : List SalesRecord) (s : String)
    (h : jsNumber s = none) :
    getByIdHandler store s =
      { status := 404,
        body := ResBody.errorMsg ("No avocado sales data found for ID: " ++ s) none } := by
  simp [getByIdHandler, h, findOne, getOneResponse]

theorem nonnumeric_id_not_found_witness :
    jsNumber "abc" = none ∧
    getByIdHandler [sampleRecord] "abc" =
      { status := 404,
        body := ResBody.errorMsg ("No avocado sales data found for ID: " ++ "abc") none } :=
  ⟨by decide, nonnumeric_id_not_found [sampleRecord] "abc" (by decide)⟩

/-- C7: on both GET handlers a store failure is caught inside the handler and
mapped to a 500 response whose body has the `error` message and a `details`
field carrying the store error text; since the handlers are total functions
of the store outcome, no store error escapes them. -/
theorem store_failure_mapped_to_500 (e : MongoErr) (idStr : String) :
    getAllResponse (Except.error e) =
      { status := 500, body := ResBody.errorMsg "Failed to retrieve data" (some e.message) }
  ∧ getOneResponse idStr (Except.error e) =
      { status := 500, body := ResBody.errorMsg "Failed to retrieve data" (some e.message) } :=
  ⟨rfl, rfl⟩

/-- C10: a query parameter supplied as the empty string is falsy, so it adds
no filter criterion and the request behaves exactly like one without that
parameter — it never filters for records whose field is the empty string. -/
theorem empty_string_param_like_absent (store : List SalesRecord) (other : Option String) :
    getAllHandler store other (some "") = getAllHandler store other none
  ∧ getAllHandler store (some "") other = getAllHandler store none other :=
  ⟨rfl, rfl⟩

/-- C8: the bulk seed first clears the collection and then inserts the fixed
seed dataset, so after a successful seed the store holds exactly the seed
records and nothing inserted earlier survives; a seed failure only produces
an error log, and the `app.listen` startup step is reached whether the seed
succeeds or fails. -/
theorem seed_clears_then_inserts (store seedData : List SalesRecord) (e : MongoErr) :
    seedDatabase store seedData = seedData
  ∧ (∀ r : SalesRecord, r ∈ seedDatabase store seedData ↔ r ∈ seedData)
  ∧ (∀ r : SalesRecord, r ∈ store → r ∉ seedData → r ∉ seedDatabase store seedData)
  ∧ startupEffects true (SeedOutcome.failed e) =
      [StartupEffect.logError "Failed to seed database:", StartupEffect.listen]
  ∧ StartupEffect.listen ∈ startupEffects true (SeedOutcome.failed e)
  ∧ StartupEffect.listen ∈ startupEffects true SeedOutcome.ok := by
  refine ⟨rfl, fun r => Iff.rfl, ?_, rfl, ?_, ?_⟩
  · intro r _ hns hmem
    exact hns hmem
  · simp [startupEffects]
  · simp [startupEffects]

/-- C3: once validation passed, the save outcome is mapped exactly as the
`catch` block prescribes — a duplicate-id insert raises the code-11000 error
and is answered 409 with the duplicate-id message, any other store error is
answered 400 with the generic creation-failure message plus the error detail,
and a successful save is answered 201 with the stored record. -/
theorem post_save_outcome_mapping (b : PostBody) (e : MongoErr) (r : SalesRecord)
    (store st2 : List SalesRecord) (x : SalesRecord)
    (hv : validBody b = true) :
    (store.any (fun y => decide (y.id = x.id)) = true →
       insertRecord store x = Except.error dupKeyErr ∧ dupKeyErr.code = some 11000)
  ∧ (e.code = some 11000 →
       postResponse b (Except.error e) =
         { status := 409,
           body := ResBody.errorMsg "Duplicate ID: An entry with this ID already exists" none })
  ∧ (e.code ≠ some 11000 →
       postResponse b (Except.error e) =
         { status := 400,
           body := ResBody.errorMsg "Failed to create avocado sale entry" (some e.message) })
  ∧ postResponse b (Except.ok (st2, r)) = { status := 201, body := ResBody.record r } := by
  refine ⟨?_, ?_, ?_, ?_⟩
  · intro ha
    exact ⟨by simp [insertRecord, ha], rfl⟩
  · intro hc
    simp [postResponse, hv, catchResponse, hc]
  · intro hc
    simp [postResponse, hv, catchResponse, hc]
  · simp [postResponse, hv]

theorem post_save_outcome_mapping_witness :
    validBody sampleBody = true ∧
    ((sampleRecord :: []).any (fun y => decide (y.id = sampleRecord.id)) = true) ∧
    insertRecord [sampleRecord] sampleRecord = Except.error dupKeyErr :=
  ⟨by decide, by decide,
    ((post_save_outcome_mapping sampleBody dupKeyErr sampleRecord [sampleRecord] []
      sampleRecord (by decide)).1 (by decide)).1⟩

/-- If no element of `l` has the id of `r`, then the first record with that
id in `l ++ [r]` is `r` itself. -/
theorem find?_id_append (l : List SalesRecord) (r : SalesRecord)
    (h : l.any (fun x => decide (x.id = r.id)) = false) :
    (l ++ [r]).find? (fun x => decide (x.id = r.id)) = some r := by
  induction l with
  | nil => simp [List.find?]
  | cons a as ih =>
    rw [List.any_cons, Bool.or_eq_false_iff] at h
    rw [List.cons_append, List.find?_cons, h.1]
    exact ih h.2

/-- A successful save decomposes: no stored record had the new record's id,
and the new store is the old one with the record appended. -/
theorem saveNew_ok_elim (store st2 : List SalesRecord) (b : PostBody) (rec : SalesRecord)
    (h : saveNew store b = Except.ok (st2, rec)) :
    store.any (fun x => decide (x.id = rec.id)) = false ∧ st2 = store ++ [rec] := by
  unfold saveNew at h
  cases hb : buildRecord b with
  | error msg =>
    rw [hb] at h
    simp at h
  | ok rr =>
    rw [hb] at h
    simp only [] at h
    cases hins : insertRecord store rr with
    | error e =>
      rw [hins] at h
      simp at h
    | ok st =>
      rw [hins] at h
      simp only [Except.ok.injEq, Prod.mk.injEq] at h
      obtain ⟨h1, h2⟩ := h
      rw [h2] at hins
      unfold insertRecord at hins
      by_cases hany : store.any (fun x => decide (x.id = rec.id)) = true
      · rw [if_pos hany] at hins
        simp at hins
      · rw [if_neg hany] at hins
        simp only [Except.ok.injEq] at hins
        refine ⟨by simpa using hany, ?_⟩
        rw [← h1]
        exact hins.symm

/-- C1: a create-then-get round trip — whenever POST answers 201 with record
`r`, a GET by id on the resulting store with any path segment parsing to
`r`'s id answers 200 with exactly `r`. -/
theorem create_then_get_roundtrip (store store2 : List SalesRecord) (b : PostBody)
    (r : SalesRecord) (s : String)
    (hpost : postHandler store b = ({ status := 201, body := ResBody.record r }, store2))
    (hid : jsNumber s = some r.id) :
    getByIdHandler store2 s = { status := 200, body := ResBody.record r } := by
  have hresp : postResponse b (saveNew store b) = { status := 201, body := ResBody.record r } :=
    congrArg Prod.fst hpost
  have hstore : newStoreAfterPost store b = store2 := congrArg Prod.snd hpost
  by_cases hv : validBody b = true
  · cases hsave : saveNew store b with
    | error e =>
      rw [hsave] at hresp
      simp [postResponse, hv] at hresp
      unfold catchResponse at hresp
      split at hresp <;> simp at hresp
    | ok p =>
      obtain ⟨st2, rec⟩ := p
      rw [hsave] at hresp
      simp [postResponse, hv] at hresp
      unfold newStoreAfterPost at hstore
      rw [if_pos hv, hsave] at hstore
      simp only [] at hstore
      obtain ⟨hany, happ⟩ := saveNew_ok_elim store st2 b rec hsave
      subst hresp
      subst hstore
      subst happ
      unfold getByIdHandler
      rw [hid]
      simp only [findOne]
      rw [find?_id_append store rec hany]
      rfl
  · simp [postResponse, hv] at hresp
theorem create_then_get_roundtrip_witness :
    postHandler [] sampleBody = ({ status := 201, body := ResBody.record sampleRecord }, [sampleRecord])
  ∧ jsNumber "1" = some sampleRecord.id
  ∧ getByIdHandler [sampleRecord] "1" = { status := 200, body := ResBody.record sampleRecord } :=
  ⟨by decide, by decide,
    create_then_get_roundtrip [] [sampleRecord] sampleBody sampleRecord "1"
      (by decide) (by decide)⟩
